import Mathlib

/-!
Verification of the leveraged bond reinvestment simulator (src/app.py).

The script's numeric core is a monthly loop over script-level state.  We
embed it shallowly: Python floats become exact rationals (ℚ), the loop
state becomes an explicit structure threaded through a step function, and
the post-loop summary stage (which can fail in Python with an IndexError
on an empty frame or a ZeroDivisionError) returns an Option.
-/

namespace BondSim

/-- Configuration of one simulator run: the sidebar parameters of
src/app.py.  `leverage` is the source's leverage_ratio slider. -/
structure Config where
  initial_investment : ℚ
  high_yield_rate : ℚ
  treasury_rate : ℚ
  borrowing_rate : ℚ
  months : ℕ
  leverage : ℚ
deriving DecidableEq, Repr

/-- borrowed_amount = initial_investment * leverage_ratio (app.py line 65). -/
def borrowed_amount (cfg : Config) : ℚ :=
  cfg.initial_investment * cfg.leverage

/-- monthly_high = high_yield_rate / 12 / 100 (app.py line 68). -/
def monthly_high (cfg : Config) : ℚ := cfg.high_yield_rate / 12 / 100

/-- monthly_treasury = treasury_rate / 12 / 100 (app.py line 69). -/
def monthly_treasury (cfg : Config) : ℚ := cfg.treasury_rate / 12 / 100

/-- monthly_borrow = borrowing_rate / 12 / 100 (app.py line 70). -/
def monthly_borrow (cfg : Config) : ℚ := cfg.borrowing_rate / 12 / 100

/-- The script-level mutable state of the loop (app.py lines 73-77). -/
structure SimState where
  high_yield_principal : ℚ
  treasury_principal : ℚ
  borrowed_balance : ℚ
  total_reinvested : ℚ
  loan_interest_paid : ℚ
deriving DecidableEq, Repr

/-- Initial state (app.py lines 73-77): both the treasury principal and the
borrowed balance start at borrowed_amount; accumulators start at 0. -/
def initState (cfg : Config) : SimState :=
  { high_yield_principal := cfg.initial_investment
    treasury_principal := borrowed_amount cfg
    borrowed_balance := borrowed_amount cfg
    total_reinvested := 0
    loan_interest_paid := 0 }

/-- One row appended to `records` (app.py lines 97-105).  Field
`loan_interest_paid` is the "Loan Interest Paid" column, which holds the
month's monthly_loan_interest; `total_reinvestment` is the
"Total Reinvested" column, which holds the month's total_reinvestment. -/
structure Record where
  month : ℕ
  high_yield_interest : ℚ
  treasury_interest : ℚ
  total_reinvestment : ℚ
  treasury_balance : ℚ
  loan_interest_paid : ℚ
  cumulative_loan_interest : ℚ
deriving DecidableEq, Repr

/-- The state update of one loop iteration (app.py lines 83-94).  Note the
source computes monthly_loan_interest from borrowed_balance but never
writes borrowed_balance back, so that field is carried unchanged. -/
def stepState (cfg : Config) (s : SimState) : SimState :=
  let high_yield_interest := s.high_yield_principal * monthly_high cfg
  let treasury_interest := s.treasury_principal * monthly_treasury cfg
  let total_reinvestment := high_yield_interest + treasury_interest
  let monthly_loan_interest := s.borrowed_balance * monthly_borrow cfg
  { s with
    treasury_principal := s.treasury_principal + total_reinvestment
    total_reinvested := s.total_reinvested + total_reinvestment
    loan_interest_paid := s.loan_interest_paid + monthly_loan_interest }

/-- The record appended during the iteration for month `m`, given the
state at the top of that iteration (app.py lines 83-105). -/
def stepRecord (cfg : Config) (s : SimState) (m : ℕ) : Record :=
  let high_yield_interest := s.high_yield_principal * monthly_high cfg
  let treasury_interest := s.treasury_principal * monthly_treasury cfg
  let total_reinvestment := high_yield_interest + treasury_interest
  let monthly_loan_interest := s.borrowed_balance * monthly_borrow cfg
  { month := m
    high_yield_interest := high_yield_interest
    treasury_interest := treasury_interest
    total_reinvestment := total_reinvestment
    treasury_balance := s.treasury_principal + total_reinvestment
    loan_interest_paid := monthly_loan_interest
    cumulative_loan_interest := s.loan_interest_paid + monthly_loan_interest }

/-- State after `m` completed loop iterations. -/
def stateAfter (cfg : Config) : ℕ → SimState
  | 0 => initState cfg
  | m + 1 => stepState cfg (stateAfter cfg m)

/-- The record of month `i + 1` (0-indexed position `i` in `records`). -/
def recordAt (cfg : Config) (i : ℕ) : Record :=
  stepRecord cfg (stateAfter cfg i) (i + 1)

/-- The full `records` list produced by the loop (app.py lines 80-105). -/
def simulate (cfg : Config) : List Record :=
  (List.range cfg.months).map (recordAt cfg)

/-- The post-loop summary (app.py lines 108-117): reads the last row
(`df.iloc[-1]`, an IndexError on an empty frame, modelled as `none`) and
computes annualized_return = (net_profit / initial_investment) * (12 /
months) * 100; the division by initial_investment = 0 (Python
ZeroDivisionError) is also modelled as `none`. -/
def annualizedReturn (cfg : Config) : Option ℚ :=
  match (simulate cfg).getLast? with
  | none => none
  | some last =>
    if cfg.initial_investment = 0 then none
    else
      let final_treasury := last.treasury_balance
      let total_loan_cost := borrowed_amount cfg + last.cumulative_loan_interest
      let investor_final := cfg.initial_investment + final_treasury - total_loan_cost
      let net_profit := investor_final - cfg.initial_investment
      some (net_profit / cfg.initial_investment * (12 / (cfg.months : ℚ)) * 100)

/-- Modelled from the spec: the spec's annualized-return formula
`(net_value_final / initial_capital)^(1/years) - 1` with
`years = horizon_months / 12`; the code for it is not under src/.  It is
expressible over ℚ exactly when `1/years = 12/horizon_months` is a
positive integer, i.e. when the horizon divides 12; outside that domain
(or on an empty run, or zero capital) we return `none`.  Used only to
compare the spec's formula against the source's. -/
def annualizedReturnSpec (cfg : Config) : Option ℚ :=
  if cfg.months = 0 ∨ ¬ (12 % cfg.months = 0) ∨ cfg.initial_investment = 0 then none
  else
    match (simulate cfg).getLast? with
    | none => none
    | some last =>
      let net_value_final :=
        cfg.initial_investment + last.treasury_balance -
          (borrowed_amount cfg + last.cumulative_loan_interest)
      some ((net_value_final / cfg.initial_investment) ^ (12 / cfg.months) - 1)

/-- Rounding to two decimal places, used to read the spec's illustrative
currency figures (e.g. 1166.67) as exact statements about ℚ values. -/
def round2 (x : ℚ) : ℚ := (round (100 * x) : ℤ) / 100

/-- Reinvestment-policy variants of the engine.  Only one variant of the
repository is under src/ (app.py, whose arithmetic ordering is the spec's
Policy B); Policies A and C are modelled from the spec. -/
inductive Policy
  | A
  | B
  | C
deriving DecidableEq, Repr

/-- Modelled from the spec: the per-month state update of §4's algorithm
for each reinvestment policy; the source files of the repository's other
policy variants are not under src/.  Policy A deposits only the
high-yield interest, then earns secondary interest on the updated balance;
Policy B (the ordering of src/app.py) computes secondary interest on the
opening balance and deposits both; Policy C deposits first and then
applies a compounding pass on the post-deposit balance.  The loan side
follows §4 step (d): the borrowed balance compounds. -/
def stepPolicy (pol : Policy) (cfg : Config) (s : SimState) : SimState :=
  let high_yield_interest := s.high_yield_principal * monthly_high cfg
  let borrowing_cost := s.borrowed_balance * monthly_borrow cfg
  let treasury_after :=
    match pol with
    | Policy.A =>
      let deposited := s.treasury_principal + high_yield_interest
      deposited + deposited * monthly_treasury cfg
    | Policy.B =>
      s.treasury_principal + high_yield_interest +
        s.treasury_principal * monthly_treasury cfg
    | Policy.C =>
      let deposited := s.treasury_principal + high_yield_interest
      deposited + deposited * monthly_treasury cfg
  { s with
    treasury_principal := treasury_after
    borrowed_balance := s.borrowed_balance + borrowing_cost
    loan_interest_paid := s.loan_interest_paid + borrowing_cost }

/-- State after `m` months under a given reinvestment policy. -/
def policyStateAfter (pol : Policy) (cfg : Config) : ℕ → SimState
  | 0 => initState cfg
  | m + 1 => stepPolicy pol cfg (policyStateAfter pol cfg m)

end BondSim

namespace BondSim

/-- Default sidebar values of src/app.py (lines 29-62): 100000 at 14/12/10
percent over 12 months with leverage 1. -/
def cfgDefault : Config :=
  { initial_investment := 100000, high_yield_rate := 14, treasury_rate := 12
    borrowing_rate := 10, months := 12, leverage := 1 }

/-- The one-month scenario of the spec (§8): same parameters over one month. -/
def cfg8 : Config :=
  { initial_investment := 100000, high_yield_rate := 14, treasury_rate := 12
    borrowing_rate := 10, months := 1, leverage := 1 }

/-- A configuration whose final net value is negative: zero bond rates and a
2400 percent annual borrowing rate over six months. -/
def cfgNegNet : Config :=
  { initial_investment := 100, high_yield_rate := 0, treasury_rate := 0
    borrowing_rate := 2400, months := 6, leverage := 1 }

/-- A zero-month horizon (invalid per the spec's preconditions). -/
def cfgZeroHorizon : Config :=
  { initial_investment := 100000, high_yield_rate := 14, treasury_rate := 12
    borrowing_rate := 10, months := 0, leverage := 1 }

/-- A zero initial capital (invalid per the spec's preconditions). -/
def cfgZeroCapital : Config :=
  { initial_investment := 0, high_yield_rate := 14, treasury_rate := 12
    borrowing_rate := 10, months := 3, leverage := 1 }

/-- Both bond rates zero (for the zero-rate property). -/
def cfgZeroRates : Config :=
  { initial_investment := 100000, high_yield_rate := 0, treasury_rate := 0
    borrowing_rate := 10, months := 2, leverage := 1 }

theorem stateAfter_borrowed_balance (cfg : Config) (m : ℕ) :
    (stateAfter cfg m).borrowed_balance = borrowed_amount cfg := by
  induction m with
  | zero => rfl
  | succ n ih => simp [stateAfter, stepState, ih]

theorem stateAfter_high_yield (cfg : Config) (m : ℕ) :
    (stateAfter cfg m).high_yield_principal = cfg.initial_investment := by
  induction m with
  | zero => rfl
  | succ n ih => simp [stateAfter, stepState, ih]

theorem stateAfter_loan_interest_paid (cfg : Config) (m : ℕ) :
    (stateAfter cfg m).loan_interest_paid =
      (m : ℚ) * (borrowed_amount cfg * monthly_borrow cfg) := by
  induction m with
  | zero => simp [stateAfter, initState]
  | succ n ih =>
    simp [stateAfter, stepState, ih, stateAfter_borrowed_balance]
    ring

theorem stateAfter_treasury_total (cfg : Config) (m : ℕ) :
    (stateAfter cfg m).treasury_principal =
      borrowed_amount cfg + (stateAfter cfg m).total_reinvested := by
  induction m with
  | zero => simp [stateAfter, initState]
  | succ n ih =>
    simp [stateAfter, stepState, ih]
    ring

theorem simulate_length (cfg : Config) : (simulate cfg).length = cfg.months := by
  simp [simulate]

theorem simulate_get (cfg : Config) (i : ℕ) (h : i < (simulate cfg).length) :
    (simulate cfg).get ⟨i, h⟩ = recordAt cfg i := by
  simp [simulate]

end BondSim

namespace BondSim

/-- Claim C1, counterexample: under the default configuration the borrowing
rate is positive, yet the borrowed balance after month 2 equals the
borrowed balance after month 1 — the loop never adds the borrowing cost to
the balance, so the balance does not strictly grow. -/
theorem C1_counterexample :
    0 < cfgDefault.borrowing_rate ∧
      (stateAfter cfgDefault 2).borrowed_balance =
        (stateAfter cfgDefault 1).borrowed_balance := by
  refine ⟨by norm_num [cfgDefault], ?_⟩
  simp [stateAfter_borrowed_balance]

/-- Claim C1 as amended: each month's recorded loan cost is the current
borrowed balance times the monthly borrow rate, but the borrowed balance
is never increased by it — it stays equal to borrowed_amount for the whole
run, so the loan accrues simple (non-compounding) interest. -/
theorem C1_amended_no_loan_compounding (cfg : Config) (i : ℕ)
    (h : i < (simulate cfg).length) :
    ((simulate cfg).get ⟨i, h⟩).loan_interest_paid =
        (stateAfter cfg i).borrowed_balance * monthly_borrow cfg ∧
      (stateAfter cfg (i + 1)).borrowed_balance = (stateAfter cfg i).borrowed_balance ∧
      (stateAfter cfg i).borrowed_balance = borrowed_amount cfg := by
  refine ⟨?_, ?_, stateAfter_borrowed_balance cfg i⟩
  · rw [simulate_get]
    simp [recordAt, stepRecord]
  · simp [stateAfter_borrowed_balance]

/-- Witness for the amended C1 at the default configuration, month 1. -/
theorem C1_witness :
    ((simulate cfgDefault).get ⟨0, by decide⟩).loan_interest_paid =
        (stateAfter cfgDefault 0).borrowed_balance * monthly_borrow cfgDefault ∧
      (stateAfter cfgDefault 1).borrowed_balance =
        (stateAfter cfgDefault 0).borrowed_balance ∧
      (stateAfter cfgDefault 0).borrowed_balance = borrowed_amount cfgDefault :=
  C1_amended_no_loan_compounding cfgDefault 0 (by decide)

/-- Claim C3, counterexample: with zero initial capital — invalid per the
spec's preconditions — the engine still runs the loop and produces the
full sequence of 3 snapshots, so no InvalidConfiguration error is raised
before any simulation step. -/
theorem C3_counterexample :
    cfgZeroCapital.initial_investment = 0 ∧ (simulate cfgZeroCapital).length = 3 :=
  ⟨rfl, by decide⟩

/-- Claim C3 as amended: the script performs no configuration validation.
With a zero horizon the loop body never runs and an empty sequence
results, the only failure being the post-loop final-row lookup; with zero
initial capital the full horizon of snapshots is produced and the only
failure is the division in the post-loop annualized-return formula. -/
theorem C3_amended_no_validation (cfg : Config) :
    (cfg.months = 0 → simulate cfg = [] ∧ annualizedReturn cfg = none) ∧
      (cfg.initial_investment = 0 →
        (simulate cfg).length = cfg.months ∧ annualizedReturn cfg = none) := by
  constructor
  · intro h
    refine ⟨by simp [simulate, h], ?_⟩
    simp [annualizedReturn, simulate, h]
  · intro h
    refine ⟨simulate_length cfg, ?_⟩
    unfold annualizedReturn
    cases heq : (simulate cfg).getLast? with
    | none => simp
    | some last => simp [h]

/-- Witness applying the amended C3 at the two invalid configurations. -/
theorem C3_witness :
    (simulate cfgZeroHorizon = [] ∧ annualizedReturn cfgZeroHorizon = none) ∧
      ((simulate cfgZeroCapital).length = cfgZeroCapital.months ∧
        annualizedReturn cfgZeroCapital = none) :=
  ⟨(C3_amended_no_validation cfgZeroHorizon).1 rfl,
    (C3_amended_no_validation cfgZeroCapital).2 rfl⟩

/-- Claim C4: the records list has exactly `months` entries and the month
field of the entry at position `i` is `i + 1`, i.e. the months read 1, 2,
…, horizon in ascending order with no gaps. -/
theorem C4_snapshot_count_and_month_numbers (cfg : Config) :
    (simulate cfg).length = cfg.months ∧
      ∀ i (h : i < (simulate cfg).length),
        ((simulate cfg).get ⟨i, h⟩).month = i + 1 := by
  refine ⟨simulate_length cfg, ?_⟩
  intro i h
  rw [simulate_get]
  simp [recordAt, stepRecord]

/-- Witness for C4 at the default configuration, first snapshot. -/
theorem C4_witness :
    (simulate cfgDefault).length = cfgDefault.months ∧
      ((simulate cfgDefault).get ⟨0, by decide⟩).month = 0 + 1 :=
  ⟨(C4_snapshot_count_and_month_numbers cfgDefault).1,
    (C4_snapshot_count_and_month_numbers cfgDefault).2 0 (by decide)⟩

/-- Claim C5: the high-yield principal starts at the initial capital and is
never changed by any monthly step — in the source's loop and in every
modelled reinvestment-policy variant. -/
theorem C5_high_yield_principal_constant (pol : Policy) (cfg : Config) (m : ℕ) :
    (stateAfter cfg m).high_yield_principal = cfg.initial_investment ∧
      (policyStateAfter pol cfg m).high_yield_principal = cfg.initial_investment := by
  refine ⟨stateAfter_high_yield cfg m, ?_⟩
  induction m with
  | zero => rfl
  | succ n ih => cases pol <;> simp [policyStateAfter, stepPolicy, ih]

end BondSim

namespace BondSim

theorem monthly_high_nonneg (cfg : Config) (h : 0 ≤ cfg.high_yield_rate) :
    0 ≤ monthly_high cfg :=
  div_nonneg (div_nonneg h (by norm_num)) (by norm_num)

theorem monthly_treasury_nonneg (cfg : Config) (h : 0 ≤ cfg.treasury_rate) :
    0 ≤ monthly_treasury cfg :=
  div_nonneg (div_nonneg h (by norm_num)) (by norm_num)

theorem monthly_borrow_nonneg (cfg : Config) (h : 0 ≤ cfg.borrowing_rate) :
    0 ≤ monthly_borrow cfg :=
  div_nonneg (div_nonneg h (by norm_num)) (by norm_num)

theorem stateAfter_treasury_nonneg (cfg : Config)
    (h0 : 0 ≤ cfg.initial_investment) (hl : 0 ≤ cfg.leverage)
    (hh : 0 ≤ cfg.high_yield_rate) (ht : 0 ≤ cfg.treasury_rate) (m : ℕ) :
    0 ≤ (stateAfter cfg m).treasury_principal := by
  induction m with
  | zero =>
    simpa [stateAfter, initState, borrowed_amount] using mul_nonneg h0 hl
  | succ n ih =>
    have h1 : 0 ≤ (stateAfter cfg n).high_yield_principal * monthly_high cfg := by
      rw [stateAfter_high_yield]
      exact mul_nonneg h0 (monthly_high_nonneg cfg hh)
    have h2 : 0 ≤ (stateAfter cfg n).treasury_principal * monthly_treasury cfg :=
      mul_nonneg ih (monthly_treasury_nonneg cfg ht)
    simp only [stateAfter, stepState]
    linarith

/-- Claim C6: with non-negative capital, leverage, and rates, the treasury
principal, the borrowed balance, and the cumulative loan interest are all
non-decreasing month over month. -/
theorem C6_monotone_sequences (cfg : Config)
    (h0 : 0 ≤ cfg.initial_investment) (hl : 0 ≤ cfg.leverage)
    (hh : 0 ≤ cfg.high_yield_rate) (ht : 0 ≤ cfg.treasury_rate)
    (hb : 0 ≤ cfg.borrowing_rate) (m : ℕ) :
    (stateAfter cfg m).treasury_principal ≤ (stateAfter cfg (m + 1)).treasury_principal ∧
      (stateAfter cfg m).borrowed_balance ≤ (stateAfter cfg (m + 1)).borrowed_balance ∧
      (stateAfter cfg m).loan_interest_paid ≤
        (stateAfter cfg (m + 1)).loan_interest_paid := by
  refine ⟨?_, ?_, ?_⟩
  · have h1 : 0 ≤ (stateAfter cfg m).high_yield_principal * monthly_high cfg := by
      rw [stateAfter_high_yield]
      exact mul_nonneg h0 (monthly_high_nonneg cfg hh)
    have h2 : 0 ≤ (stateAfter cfg m).treasury_principal * monthly_treasury cfg :=
      mul_nonneg (stateAfter_treasury_nonneg cfg h0 hl hh ht m)
        (monthly_treasury_nonneg cfg ht)
    simp only [stateAfter, stepState]
    linarith
  · simp [stateAfter_borrowed_balance]
  · have h3 : 0 ≤ borrowed_amount cfg * monthly_borrow cfg :=
      mul_nonneg (mul_nonneg h0 hl) (monthly_borrow_nonneg cfg hb)
    rw [stateAfter_loan_interest_paid, stateAfter_loan_interest_paid]
    push_cast
    nlinarith [h3]

/-- Witness for C6 at the default configuration, month 1. -/
theorem C6_witness :
    (stateAfter cfgDefault 0).treasury_principal ≤
        (stateAfter cfgDefault 1).treasury_principal ∧
      (stateAfter cfgDefault 0).borrowed_balance ≤
        (stateAfter cfgDefault 1).borrowed_balance ∧
      (stateAfter cfgDefault 0).loan_interest_paid ≤
        (stateAfter cfgDefault 1).loan_interest_paid :=
  C6_monotone_sequences cfgDefault (by norm_num [cfgDefault]) (by norm_num [cfgDefault])
    (by norm_num [cfgDefault]) (by norm_num [cfgDefault]) (by norm_num [cfgDefault]) 0

/-- Claim C7: if both the high-yield and the treasury annual rates are zero,
the treasury principal stays at its initial value (the borrowed amount)
after every month, and so does the balance recorded in every snapshot. -/
theorem C7_zero_rates_treasury_constant (cfg : Config)
    (hh : cfg.high_yield_rate = 0) (ht : cfg.treasury_rate = 0) :
    (∀ m, (stateAfter cfg m).treasury_principal = borrowed_amount cfg) ∧
      ∀ i (h : i < (simulate cfg).length),
        ((simulate cfg).get ⟨i, h⟩).treasury_balance = borrowed_amount cfg := by
  have key : ∀ m, (stateAfter cfg m).treasury_principal = borrowed_amount cfg := by
    intro m
    induction m with
    | zero => rfl
    | succ n ih =>
      simp [stateAfter, stepState, ih, monthly_high, monthly_treasury, hh, ht]
  refine ⟨key, ?_⟩
  intro i h
  rw [simulate_get]
  simp [recordAt, stepRecord, key i, monthly_high, monthly_treasury, hh, ht]

/-- Witness for C7 at the zero-rate configuration. -/
theorem C7_witness :
    (stateAfter cfgZeroRates 2).treasury_principal = borrowed_amount cfgZeroRates ∧
      ((simulate cfgZeroRates).get ⟨0, by decide⟩).treasury_balance =
        borrowed_amount cfgZeroRates :=
  ⟨(C7_zero_rates_treasury_constant cfgZeroRates rfl rfl).1 2,
    (C7_zero_rates_treasury_constant cfgZeroRates rfl rfl).2 0 (by decide)⟩

end BondSim

namespace BondSim

/-- Claim C8, counterexample: in the one-month scenario the claimed
borrowed_balance of 100833.33 is wrong — the loop never adds the borrowing
cost to the balance, which stays exactly 100000 (and the emitted snapshot
has no borrowed-balance field at all). -/
theorem C8_counterexample :
    (stateAfter cfg8 1).borrowed_balance = 100000 ∧ ((100000 : ℚ) ≠ 100833.33) := by
  constructor
  · rw [stateAfter_borrowed_balance]
    norm_num [borrowed_amount, cfg8]
  · norm_num

/-- Claim C8 as amended: the month-1 snapshot of the one-month scenario has
(to two decimals) high-yield interest 1166.67, treasury interest 1000.00
on the opening balance, treasury balance 102166.67, and loan cost 833.33;
the borrowed balance stays exactly 100000, while borrowed_amount plus the
cumulative loan interest is 100833.33. -/
theorem C8_amended_scenario :
    simulate cfg8 = [recordAt cfg8 0] ∧
      round2 ((recordAt cfg8 0).high_yield_interest) = 1166.67 ∧
      (recordAt cfg8 0).treasury_interest = 1000 ∧
      round2 ((recordAt cfg8 0).treasury_balance) = 102166.67 ∧
      round2 ((recordAt cfg8 0).loan_interest_paid) = 833.33 ∧
      (stateAfter cfg8 1).borrowed_balance = 100000 ∧
      round2 (borrowed_amount cfg8 + (recordAt cfg8 0).cumulative_loan_interest) =
        100833.33 := by
  refine ⟨by simp [simulate, cfg8, List.range_succ], ?_, ?_, ?_, ?_, ?_, ?_⟩ <;>
    norm_num [round2, recordAt, stepRecord, stateAfter, stepState, initState, cfg8,
      borrowed_amount, monthly_high, monthly_treasury, monthly_borrow, round_eq]

/-- Claim C9: every snapshot records the same per-month loan interest,
borrowed_amount × borrow_rate / 12 / 100, and the cumulative loan interest
recorded at position i is (i + 1) times that constant — simple interest on
a never-growing balance. -/
theorem C9_loan_interest_constant (cfg : Config) (i : ℕ)
    (h : i < (simulate cfg).length) :
    ((simulate cfg).get ⟨i, h⟩).loan_interest_paid =
        borrowed_amount cfg * cfg.borrowing_rate / 12 / 100 ∧
      ((simulate cfg).get ⟨i, h⟩).cumulative_loan_interest =
        (i + 1 : ℚ) * (borrowed_amount cfg * cfg.borrowing_rate / 12 / 100) := by
  rw [simulate_get]
  constructor
  · simp [recordAt, stepRecord, stateAfter_borrowed_balance, monthly_borrow]
    ring
  · simp [recordAt, stepRecord, stateAfter_borrowed_balance,
      stateAfter_loan_interest_paid, monthly_borrow]
    ring

/-- Witness for C9 at the default configuration, month 1. -/
theorem C9_witness :
    ((simulate cfgDefault).get ⟨0, by decide⟩).loan_interest_paid =
        borrowed_amount cfgDefault * cfgDefault.borrowing_rate / 12 / 100 ∧
      ((simulate cfgDefault).get ⟨0, by decide⟩).cumulative_loan_interest =
        (((0 : ℕ) : ℚ) + 1) *
          (borrowed_amount cfgDefault * cfgDefault.borrowing_rate / 12 / 100) :=
  C9_loan_interest_constant cfgDefault 0 (by decide)

theorem total_reinvested_eq_sum (cfg : Config) (m : ℕ) :
    (stateAfter cfg m).total_reinvested =
      ∑ k ∈ Finset.range m, (recordAt cfg k).total_reinvestment := by
  induction m with
  | zero => simp [stateAfter, initState]
  | succ n ih =>
    rw [Finset.sum_range_succ, ← ih]
    simp [stateAfter, stepState, recordAt, stepRecord]

theorem recordAt_treasury_balance (cfg : Config) (i : ℕ) :
    (recordAt cfg i).treasury_balance = (stateAfter cfg (i + 1)).treasury_principal := by
  simp [recordAt, stepRecord, stateAfter, stepState]

/-- Claim C10: the treasury balance recorded at position i equals
borrowed_amount plus the sum of the recorded per-month reinvestment
amounts of the first i + 1 months — the balance changes only by the
recorded deposits. -/
theorem C10_treasury_balance_is_cumulative_reinvestment (cfg : Config) (i : ℕ)
    (h : i < (simulate cfg).length) :
    ((simulate cfg).get ⟨i, h⟩).treasury_balance =
      borrowed_amount cfg +
        ∑ k ∈ Finset.range (i + 1), (recordAt cfg k).total_reinvestment := by
  rw [simulate_get, recordAt_treasury_balance, stateAfter_treasury_total,
    total_reinvested_eq_sum]

/-- Witness for C10 at the default configuration, month 1. -/
theorem C10_witness :
    ((simulate cfgDefault).get ⟨0, by decide⟩).treasury_balance =
      borrowed_amount cfgDefault +
        ∑ k ∈ Finset.range (0 + 1), (recordAt cfgDefault k).total_reinvestment :=
  C10_treasury_balance_is_cumulative_reinvestment cfgDefault 0 (by decide)

end BondSim

namespace BondSim

/-- Claim C2, counterexample: at cfgNegNet the final net value is negative,
yet the code's annualized return is the plain rational −2400 (no
DomainError and no DivisionByZero are possible there), and the spec's
geometric formula — whose exponent 1/years = 12/6 = 2 is an integer here —
evaluates to 120 ≠ −2400: the code's linear pro-rating is not the spec's
compound formula and negative bases are not guarded. -/
theorem C2_counterexample :
    cfgNegNet.initial_investment + (recordAt cfgNegNet 5).treasury_balance -
        (borrowed_amount cfgNegNet + (recordAt cfgNegNet 5).cumulative_loan_interest)
        < 0 ∧
      annualizedReturn cfgNegNet = some (-2400) ∧
      annualizedReturnSpec cfgNegNet = some 120 ∧
      ((-2400 : ℚ) ≠ 120) := by
  refine ⟨?_, ?_, ?_, by norm_num⟩ <;>
    norm_num [annualizedReturn, annualizedReturnSpec, simulate, cfgNegNet,
      List.range_succ, recordAt, stepRecord, stateAfter, stepState, initState,
      borrowed_amount, monthly_high, monthly_treasury, monthly_borrow]

/-- Claim C2 as amended: the script's annualized return is the linear
pro-rating (net_profit / initial_capital) × (12 / horizon_months) × 100
computed from the last record; for any nonzero horizon and nonzero initial
capital it yields a plain rational — with no guard on the sign of the
final net value — and it can fail only through the division by a zero
initial capital (or the empty-frame lookup when the horizon is zero). -/
theorem C2_amended_linear_annualized (cfg : Config)
    (h1 : cfg.months ≠ 0) (h2 : cfg.initial_investment ≠ 0) :
    ∃ last, (simulate cfg).getLast? = some last ∧
      annualizedReturn cfg =
        some ((cfg.initial_investment + last.treasury_balance -
            (borrowed_amount cfg + last.cumulative_loan_interest) -
            cfg.initial_investment) / cfg.initial_investment *
          (12 / (cfg.months : ℚ)) * 100) := by
  have hne : simulate cfg ≠ [] := by
    intro hc
    have hlen := congrArg List.length hc
    rw [simulate_length] at hlen
    simp at hlen
    exact h1 hlen
  obtain ⟨last, hl⟩ := Option.isSome_iff_exists.mp (List.getLast?_isSome.mpr hne)
  refine ⟨last, hl, ?_⟩
  unfold annualizedReturn
  rw [hl]
  simp [h2]

/-- Witness for the amended C2 at the negative-net-value configuration. -/
theorem C2_witness :
    ∃ last, (simulate cfgNegNet).getLast? = some last ∧
      annualizedReturn cfgNegNet =
        some ((cfgNegNet.initial_investment + last.treasury_balance -
            (borrowed_amount cfgNegNet + last.cumulative_loan_interest) -
            cfgNegNet.initial_investment) / cfgNegNet.initial_investment *
          (12 / (cfgNegNet.months : ℚ)) * 100) :=
  C2_amended_linear_annualized cfgNegNet (by norm_num [cfgNegNet])
    (by norm_num [cfgNegNet])

end BondSim
